import Mathlib

/-!
Verification of the NeuroGraph spatial-grid core and its in-memory storage
layer (`src/api/storage/memory.py`).

The Python storage wrapper under `src/api/storage/memory.py` is embedded
directly.  The native grid engine (the Rust `Grid`/`Token` bindings imported
as `neurograph`) and the Python `core.token.token_v2.Token` class are not part
of the repository sources available here; those components are modelled from
the specification (spec.md §3, §4.1–§4.3), and every such definition carries a
doc comment starting with "Modelled from the spec".

Conventions of the embedding:
  * machine floats are modelled as rationals (`ℚ`);
  * a coordinate layer index is `Fin 8`, so the spec's `InvalidLayer` error is
    unrepresentable by construction;
  * Euclidean distances are represented by their squares (`dist2`): squaring
    is strictly monotone on nonnegative reals, so radius comparisons and the
    distance ordering of query results agree with the spec's exact Euclidean
    distance, while staying inside `ℚ`;
  * Python dictionaries are association lists in insertion order, which is
    exactly the iteration order of a Python `dict`.
-/

/-- A point of one 3-D coordinate layer. -/
abbrev Coord : Type := ℚ × ℚ × ℚ

/-- Squared Euclidean distance between two layer points. -/
def dist2 (p q : Coord) : ℚ :=
  (p.1 - q.1) ^ 2 + (p.2.1 - q.2.1) ^ 2 + (p.2.2 - q.2.2) ^ 2

/-- Python `int()` applied to a real number truncates toward zero. -/
def pyInt (q : ℚ) : ℤ := if 0 ≤ q then ⌊q⌋ else ⌈q⌉

/-- Dictionary lookup on an association list (Python `dict.get`): the value at
the first (in a Python dict: the unique) matching key. -/
def lookupKey {β : Type} (l : List (ℕ × β)) (k : ℕ) : Option β :=
  match l with
  | [] => none
  | p :: rest => if p.1 = k then some p.2 else lookupKey rest k

/-- Dictionary deletion on an association list (Python `del d[k]`). -/
def eraseKey {β : Type} (l : List (ℕ × β)) (k : ℕ) : List (ℕ × β) :=
  l.filter (fun p => p.1 != k)

/-- Dictionary membership test (Python `k in d`). -/
def hasKey {β : Type} (l : List (ℕ × β)) (k : ℕ) : Bool :=
  (lookupKey l k).isSome

/-- Dictionary insertion/overwrite (Python `d[k] = v`): an existing key keeps
its position and gets the new value, a fresh key is appended. -/
def upsertKey {β : Type} (l : List (ℕ × β)) (k : ℕ) (v : β) : List (ℕ × β) :=
  if hasKey l k then l.map (fun p => if p.1 = k then (k, v) else p)
  else l ++ [(k, v)]

/-- Modelled from the spec (§3, §4.3 failure semantics, §7): the typed error
results the grid core surfaces to its caller. -/
inductive GridError : Type
  | invalidRadius : GridError
  | tokenNotIndexed : GridError
deriving DecidableEq

/-- Modelled from the spec (§3): engine-side token held by a Grid (the Rust
`Token` of the `neurograph` bindings, not under src/).  `field_radius` and
`field_strength` are the integers the storage wrapper assigns to the binding
(`int(field_radius * 100)`, `int(field_strength * 255)` in
`InMemoryGridStorage.add_token`). -/
structure RustToken : Type where
  id : ℕ
  coords : Fin 8 → Option Coord
  weight : ℚ
  field_radius : ℤ
  field_strength : ℤ
  active : Bool

/-- Grid configuration (`GridConfig` of the bindings, defaults from
`InMemoryGridStorage.create_grid`). -/
structure GridConfig : Type where
  bucket_size : ℚ := 10
  density_threshold : ℚ := 1 / 2
  min_field_nodes : ℕ := 3

/-- Modelled from the spec (§2, §3): a Grid is its configuration plus the
token table.  The per-layer bucket indices are modelled as the derived map
from bucket key to the ids whose layer coordinate hashes there (computed from
the token table by `bucketKey`), which the query algorithms below consult
through `keyInRadius`. -/
structure Grid : Type where
  config : GridConfig := {}
  tokens : List RustToken := []

/-- Modelled from the spec (§3): bucket key of a layer point, the integer
triple `(floor(x/b), floor(y/b), floor(z/b))`. -/
def bucketKey (b : ℚ) (p : Coord) : ℤ × ℤ × ℤ :=
  (⌊p.1 / b⌋, ⌊p.2.1 / b⌋, ⌊p.2.2 / b⌋)

/-- Modelled from the spec (§4.2 `buckets_in_radius`): whether a bucket key
lies in the axis-aligned bounding cube `[floor((c-r)/b) .. floor((c+r)/b)]`
(per axis) of the sphere of radius `r` around `c` — the coarse first pass of
the two-phase bucketed search. -/
def keyInRadius (b : ℚ) (c : Coord) (r : ℚ) (k : ℤ × ℤ × ℤ) : Bool :=
  decide (⌊(c.1 - r) / b⌋ ≤ k.1 ∧ k.1 ≤ ⌊(c.1 + r) / b⌋) &&
  decide (⌊(c.2.1 - r) / b⌋ ≤ k.2.1 ∧ k.2.1 ≤ ⌊(c.2.1 + r) / b⌋) &&
  decide (⌊(c.2.2 - r) / b⌋ ≤ k.2.2 ∧ k.2.2 ≤ ⌊(c.2.2 + r) / b⌋)

/-- Linear order on `(token_id, squared distance)` result pairs: ascending by
distance, ties broken by ascending token id. -/
def pairLe (a b : ℕ × ℚ) : Bool :=
  decide (a.2 < b.2 ∨ (a.2 = b.2 ∧ a.1 ≤ b.1))

namespace Grid

/-- The coordinate a grid token has in a layer (spec §4.3 step (1): look up
the token's coordinate in `layer`). -/
def coordOf (g : Grid) (token_id : ℕ) (space : Fin 8) : Option Coord :=
  (g.tokens.find? (fun t => t.id == token_id)).bind (fun t => t.coords space)

/-- Modelled from the spec (§4.2–§4.3 step (2)): the candidate tokens whose
layer coordinate falls in a bucket intersecting the bounding cube of the query
sphere — tokens with no coordinate in the layer are absent from that layer's
index and are never candidates. -/
def candidates (g : Grid) (space : Fin 8) (c : Coord) (r : ℚ) : List RustToken :=
  g.tokens.filter (fun t =>
    match t.coords space with
    | some p => keyInRadius g.config.bucket_size c r (bucketKey g.config.bucket_size p)
    | none => false)

/-- Modelled from the spec (§4.3 steps (3)–(4)): exact-distance filtering of
the candidates against the query sphere, excluding the query token itself. -/
def neighborPairs (g : Grid) (space : Fin 8) (c : Coord) (token_id : ℕ) (r : ℚ) :
    List (ℕ × ℚ) :=
  (g.candidates space c r).filterMap (fun t =>
    match t.coords space with
    | some p => if t.id ≠ token_id ∧ dist2 c p ≤ r ^ 2 then some (t.id, dist2 c p) else none
    | none => none)

/-- Modelled from the spec (§4.3 `find_neighbors`): radius search around an
indexed token — coarse bucket pass, exact distance filter excluding the query
token, sort ascending by distance with ties by ascending id, truncate to
`max_results`. -/
def find_neighbors (g : Grid) (token_id : ℕ) (space : Fin 8) (radius : ℚ)
    (max_results : ℕ) : Except GridError (List (ℕ × ℚ)) :=
  if radius < 0 then .error .invalidRadius
  else
    match g.coordOf token_id space with
    | none => .error .tokenNotIndexed
    | some c =>
        .ok ((List.mergeSort (g.neighborPairs space c token_id radius) pairLe).take max_results)

/-- Modelled from the spec (§4.3 `range_query` steps): exact-distance
filtering of the candidates around an arbitrary point, no exclusion. -/
def rangePairs (g : Grid) (space : Fin 8) (c : Coord) (r : ℚ) : List (ℕ × ℚ) :=
  (g.candidates space c r).filterMap (fun t =>
    match t.coords space with
    | some p => if dist2 c p ≤ r ^ 2 then some (t.id, dist2 c p) else none
    | none => none)

/-- Modelled from the spec (§4.3 `range_query`): radius search around an
arbitrary point, all matches sorted ascending by distance, no result cap. -/
def range_query (g : Grid) (space : Fin 8) (x y z radius : ℚ) :
    Except GridError (List (ℕ × ℚ)) :=
  if radius < 0 then .error .invalidRadius
  else .ok (List.mergeSort (g.rangePairs space (x, y, z) radius) pairLe)

/-- Modelled from the spec (§4.3 `calculate_field_influence`, §9 falloff
note): each active candidate within the query radius whose own field reaches
the query point contributes `strength * falloff`; the spec leaves the falloff
curve pluggable, and this model uses the squared-linear falloff
`1 - d²/R²` (maximal at distance 0, zero at distance `R`, strictly decreasing
in between), with `R` the binding's fixed-point `field_radius/100`. -/
def calculate_field_influence (g : Grid) (space : Fin 8) (x y z radius : ℚ) :
    Except GridError ℚ :=
  if radius < 0 then .error .invalidRadius
  else
    .ok (((g.candidates space (x, y, z) radius).filterMap (fun t =>
      match t.coords space with
      | some p =>
          let d2 := dist2 (x, y, z) p
          let R : ℚ := (t.field_radius : ℚ) / 100
          if t.active = true ∧ d2 ≤ radius ^ 2 ∧ d2 ≤ R ^ 2 then
            some ((t.field_strength : ℚ) * (1 - d2 / R ^ 2))
          else none
      | none => none)).sum)

/-- Modelled from the spec (§4.3 `calculate_density`): count of active
candidates within the radius, normalized by the sphere volume `4/3·π·r³`,
with the explicit zero-radius guard returning `0.0`. -/
noncomputable def calculate_density (g : Grid) (space : Fin 8) (x y z radius : ℚ) :
    Except GridError ℝ :=
  if radius < 0 then .error .invalidRadius
  else if radius = 0 then .ok 0
  else
    .ok ((((g.candidates space (x, y, z) radius).filter (fun t =>
        match t.coords space with
        | some p => decide (t.active = true ∧ dist2 (x, y, z) p ≤ radius ^ 2)
        | none => false)).length : ℝ) / ((4 / 3) * Real.pi * (radius : ℝ) ^ 3))

/-- Modelled from the spec (§4.3 `add`): store/overwrite the token in the
table keyed by id; re-adding an id first drops the old entry (and with it its
stale derived index entries), then inserts the new one. -/
def add (g : Grid) (t : RustToken) : Grid :=
  { g with tokens := (g.tokens.filter (fun u => u.id != t.id)) ++ [t] }

/-- Modelled from the spec (§4.3 `remove`): drop the token from the table (and
hence from every derived layer index); also returns the removed token, mirroring
the binding's `remove` whose result the wrapper tests against `None`. -/
def remove (g : Grid) (token_id : ℕ) : Grid × Option RustToken :=
  ({ g with tokens := g.tokens.filter (fun u => u.id != token_id) },
   g.tokens.find? (fun u => u.id == token_id))

end Grid

/-- Brute-force neighbor search, written from the claim's own words: exactly
the tokens of the table whose exact Euclidean distance in the layer from the
query coordinate `c` is within the radius, excluding the query token, as
`(token_id, distance)` pairs sorted ascending by distance with ties by
ascending token id, truncated to `max_results`. -/
def bruteNeighbors (g : Grid) (token_id : ℕ) (space : Fin 8) (radius : ℚ) (c : Coord) :
    List (ℕ × ℚ) :=
  List.mergeSort (g.tokens.filterMap (fun t =>
    match t.coords space with
    | some p => if t.id ≠ token_id ∧ dist2 c p ≤ radius ^ 2 then some (t.id, dist2 c p) else none
    | none => none)) pairLe

/-- Modelled from the spec (§3, §4.1): the Python `Token`
(`core.token.token_v2`, not under src/): identity, optional per-layer
coordinates, weight, field radius/strength, independent flag bits; all fields
default (weight 0.5, field_radius 1.0, field_strength 1.0, coordinates unset,
active false until explicitly activated). -/
structure Token : Type where
  id : ℕ
  coords : Fin 8 → Option Coord := fun _ => none
  weight : ℚ := 1 / 2
  field_radius : ℚ := 1
  field_strength : ℚ := 1
  active : Bool := false
  persistent : Bool := false

/-- Modelled from the spec (§4.1 `set_coordinates`): any of x/y/z may be
omitted meaning "unchanged" on update; on first set, unset components default
to 0.0.  The layer argument is `Fin 8`, so `InvalidLayer` cannot arise. -/
def Token.set_coordinates (t : Token) (level : Fin 8) (x y z : Option ℚ) : Token :=
  let base := (t.coords level).getD (0, 0, 0)
  { t with coords := fun m =>
      if m = level then some (x.getD base.1, y.getD base.2.1, z.getD base.2.2)
      else t.coords m }

/-- Modelled from the spec (§3, §9): `create_token_id` of
`core.token.token_v2` (not under src/) packs `(local_id, entity_type,
domain)` into one integer id; the spec does not pin the bit ranges, so this
model places local_id in the low 32 bits, entity_type in the next 8 and
domain in the 8 above those. -/
def create_token_id (local_id entity_type domain : ℕ) : ℕ :=
  local_id % 2 ^ 32 + entity_type % 2 ^ 8 * 2 ^ 32 + domain % 2 ^ 8 * 2 ^ 40

/-- One optional coordinate-dict of a token-data payload (Python
`{'x': ..., 'y': ..., 'z': ...}` with every key optional). -/
abbrev CoordData : Type := Option ℚ × Option ℚ × Option ℚ

/-- The `token_data` dictionary consumed by `InMemoryTokenStorage.create` and
`update`: every key optional, `coords L` standing for the
`l{L+1}_<name>` coordinate sub-dictionary of layer `L`. -/
structure TokenData : Type where
  entity_type : Option ℕ := none
  domain : Option ℕ := none
  weight : Option ℚ := none
  field_radius : Option ℚ := none
  field_strength : Option ℚ := none
  persistent : Option Bool := none
  coords : Fin 8 → Option CoordData := fun _ => none

/-- One level of the coordinate-setting loop shared by
`InMemoryTokenStorage.create` and `update` (memory.py lines 122–131 and
161–170): if the payload has this level's coordinate dict and at least one of
x/y/z is not None, call `set_coordinates` with the given components. -/
def applyCoordStep (d : TokenData) (tok : Token) (L : Fin 8) : Token :=
  match d.coords L with
  | some c =>
      if c.1 ≠ none ∨ c.2.1 ≠ none ∨ c.2.2 ≠ none then
        tok.set_coordinates L c.1 c.2.1 c.2.2
      else tok
  | none => tok

/-- The full 8-level coordinate-setting loop of `InMemoryTokenStorage.create`
and `update`. -/
def applyCoords (d : TokenData) (t : Token) : Token :=
  (List.finRange 8).foldl (applyCoordStep d) t

/-- State of `InMemoryTokenStorage` (memory.py lines 54–224): the
`_initialized` singleton flag, the id → token dictionary, and the
`_next_local_id` counter. -/
structure InMemoryTokenStorage : Type where
  initialized : Bool := true
  storage : List (ℕ × Token) := []
  next_local_id : ℕ := 1

namespace InMemoryTokenStorage

/-- Embeds `InMemoryTokenStorage.get` (memory.py lines 77–87). -/
def get (s : InMemoryTokenStorage) (token_id : ℕ) : Option Token :=
  lookupKey s.storage token_id

/-- Embeds `InMemoryTokenStorage.create` (memory.py lines 89–135): extract parameters
with their defaults, consume the next local id to build the token id, build
the token, set its fields and coordinates, store it. -/
def create (s : InMemoryTokenStorage) (d : TokenData) : InMemoryTokenStorage × Token :=
  let entity_type := d.entity_type.getD 0
  let domain := d.domain.getD 0
  let token_id := create_token_id s.next_local_id entity_type domain
  let t : Token :=
    { id := token_id
      weight := d.weight.getD (1 / 2)
      field_radius := d.field_radius.getD 1
      field_strength := d.field_strength.getD 1
      persistent := d.persistent.getD false }
  let t := applyCoords d t
  ({ s with storage := upsertKey s.storage token_id t,
            next_local_id := s.next_local_id + 1 }, t)

/-- Embeds `InMemoryTokenStorage.update` (memory.py lines 137–172): update the fields
present in the payload, then run the coordinate loop; None when the token does
not exist. -/
def update (s : InMemoryTokenStorage) (token_id : ℕ) (d : TokenData) :
    InMemoryTokenStorage × Option Token :=
  match lookupKey s.storage token_id with
  | none => (s, none)
  | some t =>
      let t := match d.weight with | some w => { t with weight := w } | none => t
      let t := match d.field_radius with | some r => { t with field_radius := r } | none => t
      let t := match d.field_strength with | some f => { t with field_strength := f } | none => t
      let t := applyCoords d t
      ({ s with storage := s.storage.map (fun p => if p.1 = token_id then (token_id, t) else p) },
       some t)

/-- Embeds `InMemoryTokenStorage.delete` (memory.py lines 174–187). -/
def delete (s : InMemoryTokenStorage) (token_id : ℕ) : InMemoryTokenStorage × Bool :=
  if hasKey s.storage token_id then
    ({ s with storage := eraseKey s.storage token_id }, true)
  else (s, false)

/-- Embeds `InMemoryTokenStorage.clear` (memory.py lines 205–215): empty the table,
reset the local id counter to 1, return the removed count. -/
def clear (s : InMemoryTokenStorage) : InMemoryTokenStorage × ℕ :=
  ({ s with storage := [], next_local_id := 1 }, s.storage.length)

/-- Embeds `InMemoryTokenStorage.count` (memory.py lines 217–224). -/
def count (s : InMemoryTokenStorage) : ℕ := s.storage.length

/-- Embeds `InMemoryTokenStorage.__new__` (memory.py lines 60–66): reuse the class
instance when it exists; otherwise allocate a fresh object whose only
meaningful attribute so far is `_initialized = False` (the data attributes do
not exist yet in Python and are given placeholder values here — `pyInitChk`
overwrites them before they are ever read). -/
def pyNew (inst : Option InMemoryTokenStorage) : InMemoryTokenStorage :=
  match inst with
  | some s => s
  | none => { initialized := false, storage := [], next_local_id := 1 }

/-- Embeds `InMemoryTokenStorage.__init__` (memory.py lines 68–75): return untouched
when already initialized, else set up the empty table and counter. -/
def pyInitChk (s : InMemoryTokenStorage) : InMemoryTokenStorage :=
  if s.initialized then s else { initialized := true, storage := [], next_local_id := 1 }

/-- Python construction `InMemoryTokenStorage()`: `__new__` then `__init__`,
against the current class-level singleton (`none` when no instance exists
yet). -/
def construct (inst : Option InMemoryTokenStorage) : InMemoryTokenStorage :=
  pyInitChk (pyNew inst)

end InMemoryTokenStorage

/-- Embeds `get_memory_token_storage` (memory.py lines 736–741): the module-level
accessor only caches the class singleton, so its observable effect is exactly
a construction against the current instance. -/
def get_memory_token_storage (inst : Option InMemoryTokenStorage) : InMemoryTokenStorage :=
  InMemoryTokenStorage.construct inst

/-- The optional `config` dictionary accepted by
`InMemoryGridStorage.create_grid`. -/
structure GridConfigData : Type where
  bucket_size : Option ℚ := none
  density_threshold : Option ℚ := none
  min_field_nodes : Option ℕ := none

/-- State of `InMemoryGridStorage` (memory.py lines 231–252): the id → grid
dictionary and the `_next_grid_id` counter.  The model assumes the Rust
bindings are importable (`GRID_AVAILABLE = True`), the only configuration in
which the grid API is reachable at all. -/
structure InMemoryGridStorage : Type where
  grids : List (ℕ × Grid) := []
  next_grid_id : ℕ := 1

namespace InMemoryGridStorage

/-- Embeds `InMemoryGridStorage.create_grid` (memory.py lines 254–284): build the
grid (with config defaults 10.0 / 0.5 / 3 when a config dict is given),
allocate the next grid id, advance the counter, store the grid. -/
def create_grid (s : InMemoryGridStorage) (config : Option GridConfigData) :
    InMemoryGridStorage × ℕ :=
  let grid : Grid :=
    match config with
    | some c =>
        { config := { bucket_size := c.bucket_size.getD 10,
                      density_threshold := c.density_threshold.getD (1 / 2),
                      min_field_nodes := c.min_field_nodes.getD 3 } }
    | none => {}
  let grid_id := s.next_grid_id
  ({ grids := s.grids ++ [(grid_id, grid)], next_grid_id := grid_id + 1 }, grid_id)

/-- Embeds `InMemoryGridStorage.get_grid` (memory.py lines 286–296). -/
def get_grid (s : InMemoryGridStorage) (grid_id : ℕ) : Option Grid :=
  lookupKey s.grids grid_id

/-- Embeds `InMemoryGridStorage.delete_grid` (memory.py lines 298–311). -/
def delete_grid (s : InMemoryGridStorage) (grid_id : ℕ) : InMemoryGridStorage × Bool :=
  if hasKey s.grids grid_id then
    ({ s with grids := eraseKey s.grids grid_id }, true)
  else (s, false)

/-- Embeds `InMemoryGridStorage.list_grids` (memory.py lines 313–320). -/
def list_grids (s : InMemoryGridStorage) : List ℕ :=
  s.grids.map Prod.fst

/-- The Python-token → engine-token conversion performed by
`InMemoryGridStorage.add_token` (memory.py lines 343–367): same id; each of
the 8 coordinate spaces copied exactly when `get_coordinates` yields a triple
(so the whole coordinate map is carried over); the weight copied as is;
`field_radius` assigned `int(field_radius * 100)`, `field_strength` assigned
`int(field_strength * 255)`; `set_active(True)` called unconditionally. -/
def rustTokenOfPy (t : Token) : RustToken :=
  { id := t.id
    coords := t.coords
    weight := t.weight
    field_radius := pyInt (t.field_radius * 100)
    field_strength := pyInt (t.field_strength * 255)
    active := true }

/-- Embeds `InMemoryGridStorage.add_token` (memory.py lines 322–371): False when the
grid id is unknown; otherwise convert the Python token and add the result to
the grid. -/
def add_token (s : InMemoryGridStorage) (grid_id : ℕ) (t : Token) :
    InMemoryGridStorage × Bool :=
  match lookupKey s.grids grid_id with
  | none => (s, false)
  | some g =>
      let g := g.add (rustTokenOfPy t)
      ({ s with grids := s.grids.map (fun p => if p.1 = grid_id then (grid_id, g) else p) },
       true)

/-- Embeds `InMemoryGridStorage.remove_token` (memory.py lines 373–389). -/
def remove_token (s : InMemoryGridStorage) (grid_id token_id : ℕ) :
    InMemoryGridStorage × Bool :=
  match lookupKey s.grids grid_id with
  | none => (s, false)
  | some g =>
      let r := g.remove token_id
      ({ s with grids := s.grids.map (fun p => if p.1 = grid_id then (grid_id, r.1) else p) },
       r.2.isSome)

/-- Embeds `InMemoryGridStorage.find_neighbors` (memory.py lines 391–411): the empty
list when the grid id is unknown, otherwise the engine's answer. -/
def find_neighbors (s : InMemoryGridStorage) (grid_id token_id : ℕ) (space : Fin 8)
    (radius : ℚ) (max_results : ℕ) : Except GridError (List (ℕ × ℚ)) :=
  match lookupKey s.grids grid_id with
  | none => .ok []
  | some g => g.find_neighbors token_id space radius max_results

/-- Embeds `InMemoryGridStorage.range_query` (memory.py lines 413–434). -/
def range_query (s : InMemoryGridStorage) (grid_id : ℕ) (space : Fin 8)
    (x y z radius : ℚ) : Except GridError (List (ℕ × ℚ)) :=
  match lookupKey s.grids grid_id with
  | none => .ok []
  | some g => g.range_query space x y z radius

/-- Embeds `InMemoryGridStorage.calculate_field_influence` (memory.py lines
436–457). -/
def calculate_field_influence (s : InMemoryGridStorage) (grid_id : ℕ) (space : Fin 8)
    (x y z radius : ℚ) : Except GridError ℚ :=
  match lookupKey s.grids grid_id with
  | none => .ok 0
  | some g => g.calculate_field_influence space x y z radius

/-- Embeds `InMemoryGridStorage.calculate_density` (memory.py lines 459–480). -/
noncomputable def calculate_density (s : InMemoryGridStorage) (grid_id : ℕ) (space : Fin 8)
    (x y z radius : ℚ) : Except GridError ℝ :=
  match lookupKey s.grids grid_id with
  | none => .ok 0
  | some g => g.calculate_density space x y z radius

end InMemoryGridStorage

/-- Error raised by the grid-creation endpoint when the configured cap is
reached. -/
inductive ApiError : Type
  | maxInstancesReached : ApiError
deriving DecidableEq

/-- Modelled from the spec (§4.4, §7 `MaxInstancesReached`) and the endpoint's
unit tests: the grid-creation endpoint (`api/routers/grid.py`, not under src/)
rejects the request — leaving the storage untouched and calling `create_grid`
not at all — when the number of grids already held (the length of
`list_grids()`) has reached `GRID_MAX_INSTANCES`; below the cap it delegates
to `create_grid`. -/
def create_grid_checked (max_instances : ℕ) (s : InMemoryGridStorage)
    (config : Option GridConfigData) : InMemoryGridStorage × Except ApiError ℕ :=
  if max_instances ≤ (InMemoryGridStorage.list_grids s).length then
    (s, .error .maxInstancesReached)
  else
    let r := InMemoryGridStorage.create_grid s config
    (r.1, .ok r.2)

/-- A grid-storage operation, for stating trace properties of the id
allocator. -/
inductive GridOp : Type
  | create (config : Option GridConfigData) : GridOp
  | delete (grid_id : ℕ) : GridOp

/-- Whether a grid-storage operation is a create. -/
def GridOp.isCreate : GridOp → Bool
  | .create _ => true
  | .delete _ => false

/-- Run a sequence of grid-storage operations, collecting the grid ids
returned by the successful `create_grid` calls in order. -/
def runGridOps (s : InMemoryGridStorage) : List GridOp → InMemoryGridStorage × List ℕ
  | [] => (s, [])
  | GridOp.create c :: ops =>
      let r := InMemoryGridStorage.create_grid s c
      let rest := runGridOps r.1 ops
      (rest.1, r.2 :: rest.2)
  | GridOp.delete g :: ops =>
      runGridOps (InMemoryGridStorage.delete_grid s g).1 ops

/-- A token-storage operation, for stating trace properties of the local-id
counter. -/
inductive TokenOp : Type
  | create (d : TokenData) : TokenOp
  | update (token_id : ℕ) (d : TokenData) : TokenOp
  | delete (token_id : ℕ) : TokenOp
  | clear : TokenOp

/-- Run a sequence of token-storage operations, collecting the local id
consumed by each `create` call in order. -/
def runTokenOps (s : InMemoryTokenStorage) : List TokenOp → InMemoryTokenStorage × List ℕ
  | [] => (s, [])
  | TokenOp.create d :: ops =>
      let lid := s.next_local_id
      let rest := runTokenOps (InMemoryTokenStorage.create s d).1 ops
      (rest.1, lid :: rest.2)
  | TokenOp.update tid d :: ops =>
      runTokenOps (InMemoryTokenStorage.update s tid d).1 ops
  | TokenOp.delete tid :: ops =>
      runTokenOps (InMemoryTokenStorage.delete s tid).1 ops
  | TokenOp.clear :: ops =>
      runTokenOps (InMemoryTokenStorage.clear s).1 ops

theorem lookupKey_cons {β : Type} (p : ℕ × β) (rest : List (ℕ × β)) (k : ℕ) :
    lookupKey (p :: rest) k = if p.1 = k then some p.2 else lookupKey rest k := rfl

theorem eraseKey_cons {β : Type} (p : ℕ × β) (rest : List (ℕ × β)) (k : ℕ) :
    eraseKey (p :: rest) k = if p.1 = k then eraseKey rest k else p :: eraseKey rest k := by
  by_cases h : p.1 = k <;> simp [eraseKey, List.filter_cons, h]

theorem lookupKey_eraseKey_self {β : Type} (l : List (ℕ × β)) (k : ℕ) :
    lookupKey (eraseKey l k) k = none := by
  induction l with
  | nil => rfl
  | cons p rest ih =>
      rw [eraseKey_cons]
      by_cases h : p.1 = k
      · simpa [h] using ih
      · simpa [lookupKey_cons, h] using ih

theorem lookupKey_eraseKey_ne {β : Type} (l : List (ℕ × β)) (k k' : ℕ) (h : k' ≠ k) :
    lookupKey (eraseKey l k) k' = lookupKey l k' := by
  induction l with
  | nil => rfl
  | cons p rest ih =>
      rw [eraseKey_cons]
      by_cases hp : p.1 = k
      · rw [if_pos hp, lookupKey_cons, if_neg (fun hh => h (hh.symm.trans hp))]
        exact ih
      · rw [if_neg hp, lookupKey_cons, lookupKey_cons, ih]

theorem hasKey_iff_mem {β : Type} (l : List (ℕ × β)) (k : ℕ) :
    hasKey l k = true ↔ k ∈ l.map Prod.fst := by
  induction l with
  | nil => simp [hasKey, lookupKey]
  | cons p rest ih =>
      by_cases h : p.1 = k
      · simp [hasKey, lookupKey_cons, h]
      · simp only [hasKey, lookupKey_cons, if_neg h, List.map_cons, List.mem_cons]
        rw [← hasKey]
        rw [ih]
        constructor
        · exact fun hh => Or.inr hh
        · rintro (hh | hh)
          · exact absurd hh.symm h
          · exact hh

theorem mem_keys_eraseKey {β : Type} (l : List (ℕ × β)) (k k' : ℕ) :
    k' ∈ (eraseKey l k).map Prod.fst ↔ (k' ∈ l.map Prod.fst ∧ k' ≠ k) := by
  induction l with
  | nil => simp [eraseKey]
  | cons p rest ih =>
      rw [eraseKey_cons]
      by_cases h : p.1 = k
      · rw [if_pos h, ih]
        simp only [List.map_cons, List.mem_cons]
        constructor
        · exact fun hh => ⟨Or.inr hh.1, hh.2⟩
        · rintro ⟨hh | hh, hne⟩
          · exact absurd (hh.trans h) hne
          · exact ⟨hh, hne⟩
      · rw [if_neg h]
        simp only [List.map_cons, List.mem_cons]
        rw [ih]
        constructor
        · rintro (hh | hh)
          · exact ⟨Or.inl hh, by rw [hh]; exact h⟩
          · exact ⟨Or.inr hh.1, hh.2⟩
        · rintro ⟨hh | hh, hne⟩
          · exact Or.inl hh
          · exact Or.inr ⟨hh, hne⟩

theorem length_eraseKey {β : Type} (l : List (ℕ × β)) (k : ℕ)
    (hnd : (l.map Prod.fst).Nodup) (hmem : k ∈ l.map Prod.fst) :
    (eraseKey l k).length + 1 = l.length := by
  induction l with
  | nil => simp at hmem
  | cons p rest ih =>
      rw [eraseKey_cons]
      simp only [List.map_cons, List.nodup_cons] at hnd
      rcases List.mem_cons.mp hmem with h | h
      · rw [if_pos h.symm]
        have : eraseKey rest k = rest := by
          apply List.filter_eq_self.mpr
          intro a ha
          simp only [bne_iff_ne, ne_eq, decide_eq_true_eq]
          intro hak
          exact hnd.1 (by rw [← h, ← hak]; exact List.mem_map_of_mem Prod.fst ha)
        rw [this]
        simp
      · by_cases hp : p.1 = k
        · exact absurd (hp ▸ h) hnd.1
        · rw [if_neg hp]
          simp only [List.length_cons]
          rw [← ih hnd.2 h]

/-- C5: on a freshly initialized `InMemoryGridStorage`, the grid ids handed
out by the successful `create_grid` calls of any operation sequence are
exactly the sequential integers 1, 2, 3, … (one per create, in order), and in
particular each newly allocated id is strictly greater than every previously
allocated one no matter which `delete_grid` calls intervene, so a deleted grid
id is never reused. -/
theorem C5_grid_ids_sequential (ops : List GridOp) :
    (runGridOps {} ops).2 = List.range' 1 (ops.countP GridOp.isCreate) ∧
    ((runGridOps {} ops).2).Pairwise (· < ·) := by
  have key : ∀ (ops : List GridOp) (s : InMemoryGridStorage),
      (runGridOps s ops).2 = List.range' s.next_grid_id (ops.countP GridOp.isCreate) := by
    intro ops
    induction ops with
    | nil => intro s; simp [runGridOps]
    | cons op rest ih =>
        intro s
        cases op with
        | create c =>
            simp only [runGridOps, ih, InMemoryGridStorage.create_grid,
              List.countP_cons, GridOp.isCreate]
            simp [List.range'_succ]
        | delete g =>
            simp only [runGridOps, ih, List.countP_cons, GridOp.isCreate]
            have hnext : ((InMemoryGridStorage.delete_grid s g).1).next_grid_id =
                s.next_grid_id := by
              unfold InMemoryGridStorage.delete_grid
              split <;> rfl
            rw [hnext]
            simp
  refine ⟨key ops {}, ?_⟩
  rw [key ops {}]
  exact List.pairwise_lt_range' 1 _ 1 (by omega)

/-- C7: `delete_grid(g)` returns True exactly when g is currently stored; on
True, `get_grid(g)` afterwards is None and `list_grids()` no longer contains
g while every other grid id stays listed and bound to the same unchanged
grid; on False the storage is entirely unchanged. -/
theorem C7_delete_grid_frame (s : InMemoryGridStorage) (gid : ℕ) :
    ((InMemoryGridStorage.delete_grid s gid).2 = true ↔
      gid ∈ InMemoryGridStorage.list_grids s) ∧
    ((InMemoryGridStorage.delete_grid s gid).2 = true →
      InMemoryGridStorage.get_grid (InMemoryGridStorage.delete_grid s gid).1 gid = none ∧
      gid ∉ InMemoryGridStorage.list_grids (InMemoryGridStorage.delete_grid s gid).1 ∧
      ∀ g', g' ≠ gid →
        (g' ∈ InMemoryGridStorage.list_grids (InMemoryGridStorage.delete_grid s gid).1 ↔
          g' ∈ InMemoryGridStorage.list_grids s) ∧
        InMemoryGridStorage.get_grid (InMemoryGridStorage.delete_grid s gid).1 g' =
          InMemoryGridStorage.get_grid s g') ∧
    ((InMemoryGridStorage.delete_grid s gid).2 = false →
      (InMemoryGridStorage.delete_grid s gid).1 = s) := by
  unfold InMemoryGridStorage.delete_grid
  by_cases h : hasKey s.grids gid
  · rw [if_pos h]
    refine ⟨?_, ?_, ?_⟩
    · simpa [InMemoryGridStorage.list_grids] using (hasKey_iff_mem s.grids gid).mp h
    · intro _
      refine ⟨lookupKey_eraseKey_self s.grids gid, ?_, ?_⟩
      · intro hmem
        exact ((mem_keys_eraseKey s.grids gid gid).mp hmem).2 rfl
      · intro g' hg'
        constructor
        · simpa [InMemoryGridStorage.list_grids] using
            (show g' ∈ (eraseKey s.grids gid).map Prod.fst ↔ g' ∈ s.grids.map Prod.fst by
              rw [mem_keys_eraseKey]
              exact ⟨fun hh => hh.1, fun hh => ⟨hh, hg'⟩⟩)
        · exact lookupKey_eraseKey_ne s.grids gid g' hg'
    · intro hfalse
      exact absurd hfalse (by simp)
  · rw [if_neg h]
    refine ⟨?_, ?_, fun _ => rfl⟩
    · constructor
      · intro hh; exact absurd hh (by simp)
      · intro hmem
        exact absurd ((hasKey_iff_mem s.grids gid).mpr hmem) h
    · intro hh; exact absurd hh (by simp)

/-- Witness for C7 at a concrete storage: deleting the only stored grid
returns True, afterwards the grid is gone, and deleting a missing id leaves a
storage unchanged. -/
theorem C7_delete_grid_frame_witness :
    (InMemoryGridStorage.delete_grid ⟨[(1, {})], 2⟩ 1).2 = true ∧
    InMemoryGridStorage.get_grid (InMemoryGridStorage.delete_grid ⟨[(1, {})], 2⟩ 1).1 1 =
      none ∧
    (InMemoryGridStorage.delete_grid ⟨[(1, {})], 2⟩ 5).1 = ⟨[(1, {})], 2⟩ := by
  have h := C7_delete_grid_frame ⟨[(1, {})], 2⟩ 1
  have ht : (InMemoryGridStorage.delete_grid ⟨[(1, {})], 2⟩ 1).2 = true := by
    rw [h.1]
    simp [InMemoryGridStorage.list_grids]
  refine ⟨ht, (h.2.1 ht).1, ?_⟩
  have h5 := C7_delete_grid_frame ⟨[(1, {})], 2⟩ 5
  apply h5.2.2
  rfl

/-- C9: `InMemoryTokenStorage.delete(token_id)` returns True exactly when the
token id is present; on True, `get` afterwards returns None and `count()`
drops by one; on False the storage is completely unchanged. -/
theorem C9_token_delete_frame (s : InMemoryTokenStorage) (tid : ℕ)
    (hnd : (s.storage.map Prod.fst).Nodup) :
    ((InMemoryTokenStorage.delete s tid).2 = true ↔ tid ∈ s.storage.map Prod.fst) ∧
    ((InMemoryTokenStorage.delete s tid).2 = true →
      InMemoryTokenStorage.get (InMemoryTokenStorage.delete s tid).1 tid = none ∧
      InMemoryTokenStorage.count (InMemoryTokenStorage.delete s tid).1 + 1 =
        InMemoryTokenStorage.count s) ∧
    ((InMemoryTokenStorage.delete s tid).2 = false →
      (InMemoryTokenStorage.delete s tid).1 = s) := by
  unfold InMemoryTokenStorage.delete
  by_cases h : hasKey s.storage tid
  · rw [if_pos h]
    refine ⟨by simpa using (hasKey_iff_mem s.storage tid).mp h, ?_, ?_⟩
    · intro _
      refine ⟨lookupKey_eraseKey_self s.storage tid, ?_⟩
      simpa [InMemoryTokenStorage.count] using
        length_eraseKey s.storage tid hnd ((hasKey_iff_mem s.storage tid).mp h)
    · intro hh; exact absurd hh (by simp)
  · rw [if_neg h]
    refine ⟨?_, ?_, fun _ => rfl⟩
    · constructor
      · intro hh; exact absurd hh (by simp)
      · intro hmem
        exact absurd ((hasKey_iff_mem s.storage tid).mpr hmem) h
    · intro hh; exact absurd hh (by simp)

/-- Witness for C9 at a concrete two-token storage with distinct keys:
deleting key 5 returns True, afterwards `get 5` is None and the count drops
from 2 to 1. -/
theorem C9_token_delete_frame_witness :
    (InMemoryTokenStorage.delete ⟨true, [(5, { id := 5 }), (7, { id := 7 })], 3⟩ 5).2 =
      true ∧
    InMemoryTokenStorage.get
      (InMemoryTokenStorage.delete ⟨true, [(5, { id := 5 }), (7, { id := 7 })], 3⟩ 5).1 5 =
      none ∧
    InMemoryTokenStorage.count
      (InMemoryTokenStorage.delete ⟨true, [(5, { id := 5 }), (7, { id := 7 })], 3⟩ 5).1 + 1 =
      InMemoryTokenStorage.count ⟨true, [(5, { id := 5 }), (7, { id := 7 })], 3⟩ := by
  have h := C9_token_delete_frame ⟨true, [(5, { id := 5 }), (7, { id := 7 })], 3⟩ 5
    (by simp)
  have ht : (InMemoryTokenStorage.delete
      ⟨true, [(5, { id := 5 }), (7, { id := 7 })], 3⟩ 5).2 = true := by
    rw [h.1]
    simp
  exact ⟨ht, (h.2.1 ht).1, (h.2.1 ht).2⟩

/-- C2: every query against a grid id absent from the storage (in particular
any id for which `delete_grid` just returned True) yields the safe default —
empty list for `find_neighbors` and `range_query`, 0.0 for
`calculate_field_influence` and `calculate_density`, False (with untouched
state) for `add_token` and `remove_token` — and, all operations being total
functions of the state, never an exception. -/
theorem C2_unknown_grid_safe (s : InMemoryGridStorage) (gid tid : ℕ) (L : Fin 8)
    (x y z r : ℚ) (k : ℕ) (t : Token) :
    (lookupKey s.grids gid = none →
      InMemoryGridStorage.find_neighbors s gid tid L r k = .ok [] ∧
      InMemoryGridStorage.range_query s gid L x y z r = .ok [] ∧
      InMemoryGridStorage.calculate_field_influence s gid L x y z r = .ok 0 ∧
      InMemoryGridStorage.calculate_density s gid L x y z r = .ok 0 ∧
      InMemoryGridStorage.add_token s gid t = (s, false) ∧
      InMemoryGridStorage.remove_token s gid tid = (s, false)) ∧
    ((InMemoryGridStorage.delete_grid s gid).2 = true →
      lookupKey ((InMemoryGridStorage.delete_grid s gid).1).grids gid = none) := by
  constructor
  · intro h
    refine ⟨?_, ?_, ?_, ?_, ?_, ?_⟩ <;>
      simp [InMemoryGridStorage.find_neighbors, InMemoryGridStorage.range_query,
        InMemoryGridStorage.calculate_field_influence,
        InMemoryGridStorage.calculate_density, InMemoryGridStorage.add_token,
        InMemoryGridStorage.remove_token, h]
  · intro hdel
    unfold InMemoryGridStorage.delete_grid at hdel ⊢
    by_cases h : hasKey s.grids gid
    · rw [if_pos h]
      exact lookupKey_eraseKey_self s.grids gid
    · rw [if_neg h] at hdel
      exact absurd hdel (by simp)

/-- Witness for C2: on the empty grid storage, grid id 1 is unknown and every
operation returns its safe default. -/
theorem C2_unknown_grid_safe_witness :
    InMemoryGridStorage.find_neighbors {} 1 2 0 5 10 = .ok [] ∧
    InMemoryGridStorage.range_query {} 1 0 0 0 0 5 = .ok [] ∧
    InMemoryGridStorage.calculate_field_influence {} 1 0 0 0 0 5 = .ok 0 ∧
    InMemoryGridStorage.calculate_density {} 1 0 0 0 0 5 = .ok 0 ∧
    InMemoryGridStorage.add_token {} 1 { id := 9 } = ({}, false) ∧
    InMemoryGridStorage.remove_token {} 1 2 = ({}, false) :=
  (C2_unknown_grid_safe {} 1 2 0 0 0 0 5 10 { id := 9 }).1 rfl

theorem applyCoordStep_fields (d : TokenData) (t : Token) (L : Fin 8) :
    (applyCoordStep d t L).weight = t.weight ∧
    (applyCoordStep d t L).field_radius = t.field_radius ∧
    (applyCoordStep d t L).field_strength = t.field_strength ∧
    (applyCoordStep d t L).id = t.id ∧
    (applyCoordStep d t L).active = t.active ∧
    (applyCoordStep d t L).persistent = t.persistent := by
  rcases hC : d.coords L with _ | c
  · simp [applyCoordStep, hC]
  · by_cases hcond : c.1 ≠ none ∨ c.2.1 ≠ none ∨ c.2.2 ≠ none <;>
      simp [applyCoordStep, hC, hcond, Token.set_coordinates]

theorem applyCoords_fields (d : TokenData) (t : Token) :
    (applyCoords d t).weight = t.weight ∧
    (applyCoords d t).field_radius = t.field_radius ∧
    (applyCoords d t).field_strength = t.field_strength ∧
    (applyCoords d t).id = t.id ∧
    (applyCoords d t).active = t.active ∧
    (applyCoords d t).persistent = t.persistent := by
  unfold applyCoords
  generalize List.finRange 8 = ls
  induction ls generalizing t with
  | nil => exact ⟨rfl, rfl, rfl, rfl, rfl, rfl⟩
  | cons L rest ih =>
      simp only [List.foldl_cons]
      have h := ih (applyCoordStep d t L)
      have hs := applyCoordStep_fields d t L
      exact ⟨h.1.trans hs.1, h.2.1.trans hs.2.1, h.2.2.1.trans hs.2.2.1,
        h.2.2.2.1.trans hs.2.2.2.1, h.2.2.2.2.1.trans hs.2.2.2.2.1,
        h.2.2.2.2.2.trans hs.2.2.2.2.2⟩

/-- C8: a token created from a `token_data` dictionary that omits the weight,
field_radius and field_strength keys gets weight 0.5, field_radius 1.0 and
field_strength 1.0. -/
theorem C8_create_defaults (s : InMemoryTokenStorage) (d : TokenData)
    (hw : d.weight = none) (hr : d.field_radius = none) (hf : d.field_strength = none) :
    ((InMemoryTokenStorage.create s d).2).weight = 1 / 2 ∧
    ((InMemoryTokenStorage.create s d).2).field_radius = 1 ∧
    ((InMemoryTokenStorage.create s d).2).field_strength = 1 := by
  unfold InMemoryTokenStorage.create
  simp only [hw, hr, hf, Option.getD_none]
  have h := applyCoords_fields d
    { id := create_token_id s.next_local_id (d.entity_type.getD 0) (d.domain.getD 0)
      weight := 1 / 2
      field_radius := 1
      field_strength := 1
      persistent := d.persistent.getD false }
  exact ⟨h.1, h.2.1, h.2.2.1⟩

/-- Witness for C8: creating from the empty payload on a fresh storage yields
the default weight 0.5 and field radius/strength 1.0. -/
theorem C8_create_defaults_witness :
    ((InMemoryTokenStorage.create {} {}).2).weight = 1 / 2 ∧
    ((InMemoryTokenStorage.create {} {}).2).field_radius = 1 ∧
    ((InMemoryTokenStorage.create {} {}).2).field_strength = 1 :=
  C8_create_defaults {} {} rfl rfl rfl

/-- C10: constructing `InMemoryTokenStorage` against an already-initialized
class instance (directly or through `get_memory_token_storage`) returns that
very instance unchanged — every stored token is still retrievable, the count
and the local id counter are untouched — and any construction yields an
initialized instance. -/
theorem C10_singleton_idempotent (s : InMemoryTokenStorage) (h : s.initialized = true) :
    InMemoryTokenStorage.construct (some s) = s ∧
    get_memory_token_storage (some s) = s ∧
    (∀ tid, InMemoryTokenStorage.get (InMemoryTokenStorage.construct (some s)) tid =
      InMemoryTokenStorage.get s tid) ∧
    InMemoryTokenStorage.count (InMemoryTokenStorage.construct (some s)) =
      InMemoryTokenStorage.count s ∧
    (InMemoryTokenStorage.construct (some s)).next_local_id = s.next_local_id ∧
    (∀ o, (InMemoryTokenStorage.construct o).initialized = true) := by
  have hc : InMemoryTokenStorage.construct (some s) = s := by
    simp [InMemoryTokenStorage.construct, InMemoryTokenStorage.pyNew,
      InMemoryTokenStorage.pyInitChk, h]
  refine ⟨hc, hc, fun tid => by rw [hc], by rw [hc], by rw [hc], ?_⟩
  intro o
  rcases o with _ | s'
  · rfl
  · by_cases h' : s'.initialized = true <;>
      simp [InMemoryTokenStorage.construct, InMemoryTokenStorage.pyNew,
        InMemoryTokenStorage.pyInitChk, h']

/-- Witness for C10: a state reached by an actual create on the freshly
constructed singleton is initialized, and re-construction preserves it. -/
theorem C10_singleton_idempotent_witness :
    InMemoryTokenStorage.construct
      (some (InMemoryTokenStorage.create (InMemoryTokenStorage.construct none) {}).1) =
      (InMemoryTokenStorage.create (InMemoryTokenStorage.construct none) {}).1 :=
  (C10_singleton_idempotent
    (InMemoryTokenStorage.create (InMemoryTokenStorage.construct none) {}).1 rfl).1

/-- C4: when the grids already held have reached the configured maximum
instance count, grid creation fails with the `MaxInstancesReached` error and
allocates no new grid; below the cap it succeeds, allocating the next id. -/
theorem C4_max_instances (max_instances : ℕ) (s : InMemoryGridStorage)
    (config : Option GridConfigData) :
    (max_instances ≤ (InMemoryGridStorage.list_grids s).length →
      create_grid_checked max_instances s config =
        (s, .error ApiError.maxInstancesReached)) ∧
    ((InMemoryGridStorage.list_grids s).length < max_instances →
      (create_grid_checked max_instances s config).2 = .ok s.next_grid_id ∧
      InMemoryGridStorage.list_grids (create_grid_checked max_instances s config).1 =
        InMemoryGridStorage.list_grids s ++ [s.next_grid_id]) := by
  constructor
  · intro h
    rw [create_grid_checked, if_pos h]
  · intro h
    rw [create_grid_checked, if_neg (by omega)]
    exact ⟨rfl, by simp [InMemoryGridStorage.create_grid, InMemoryGridStorage.list_grids]⟩

/-- Witness for C4: with a cap of 1, creation on a storage already holding one
grid is rejected without touching the storage, while creation on the empty
storage succeeds with grid id 1. -/
theorem C4_max_instances_witness :
    create_grid_checked 1 ⟨[(1, {})], 2⟩ none =
      (⟨[(1, {})], 2⟩, .error ApiError.maxInstancesReached) ∧
    (create_grid_checked 1 {} none).2 = .ok 1 := by
  constructor
  · exact (C4_max_instances 1 ⟨[(1, {})], 2⟩ none).1
      (by simp [InMemoryGridStorage.list_grids])
  · exact ((C4_max_instances 1 {} none).2 (by simp [InMemoryGridStorage.list_grids])).1

theorem lookupKey_map_replace {β : Type} (l : List (ℕ × β)) (k : ℕ) (v w : β)
    (h : lookupKey l k = some w) :
    lookupKey (l.map (fun p => if p.1 = k then (k, v) else p)) k = some v := by
  induction l with
  | nil => simp [lookupKey] at h
  | cons p rest ih =>
      by_cases hp : p.1 = k
      · simp [lookupKey_cons, hp]
      · rw [lookupKey_cons, if_neg hp] at h
        simp only [List.map_cons, if_neg hp, lookupKey_cons]
        exact ih h

/-- The Python token refuting C3 as stated: all fields default, in particular
`active = false` and `field_radius = 1.0`. -/
def pyTokenCex : Token := { id := 7 }

/-- Counterexample to C3: for the default Python token, the token handed to
the grid engine does not carry the same active flag (the wrapper calls
`set_active(True)` unconditionally), nor the same field_radius (the wrapper
stores `int(field_radius * 100) = 100` in place of `1.0`). -/
theorem C3_add_token_not_lossless :
    ¬ ((InMemoryGridStorage.rustTokenOfPy pyTokenCex).active = pyTokenCex.active ∧
       ((InMemoryGridStorage.rustTokenOfPy pyTokenCex).field_radius : ℚ) =
         pyTokenCex.field_radius) := by
  intro h
  have := h.1
  simp [InMemoryGridStorage.rustTokenOfPy, pyTokenCex] at this

/-- C3 (amended): for every Python token added to an existing grid, the token
handed to the grid engine (and stored by the grid) carries the same id, the
same coordinate triple in every layer, and the same weight, while
field_radius is converted to `int(field_radius * 100)`, field_strength to
`int(field_strength * 255)`, and the active flag is unconditionally set to
True. -/
theorem C3_add_token_conversion (s : InMemoryGridStorage) (gid : ℕ) (g : Grid) (t : Token)
    (h : lookupKey s.grids gid = some g) :
    (InMemoryGridStorage.add_token s gid t).2 = true ∧
    lookupKey ((InMemoryGridStorage.add_token s gid t).1).grids gid =
      some (g.add (InMemoryGridStorage.rustTokenOfPy t)) ∧
    InMemoryGridStorage.rustTokenOfPy t ∈
      (g.add (InMemoryGridStorage.rustTokenOfPy t)).tokens ∧
    (InMemoryGridStorage.rustTokenOfPy t).id = t.id ∧
    (∀ L, (InMemoryGridStorage.rustTokenOfPy t).coords L = t.coords L) ∧
    (InMemoryGridStorage.rustTokenOfPy t).weight = t.weight ∧
    (InMemoryGridStorage.rustTokenOfPy t).field_radius = pyInt (t.field_radius * 100) ∧
    (InMemoryGridStorage.rustTokenOfPy t).field_strength = pyInt (t.field_strength * 255) ∧
    (InMemoryGridStorage.rustTokenOfPy t).active = true := by
  refine ⟨?_, ?_, ?_, rfl, fun _ => rfl, rfl, rfl, rfl, rfl⟩
  · simp [InMemoryGridStorage.add_token, h]
  · simp only [InMemoryGridStorage.add_token, h]
    exact lookupKey_map_replace s.grids gid _ g h
  · simp [Grid.add]

/-- Witness for C3's amended statement: adding a default token to a storage
holding one grid succeeds and stores the converted token. -/
theorem C3_add_token_conversion_witness :
    (InMemoryGridStorage.add_token ⟨[(1, {})], 2⟩ 1 pyTokenCex).2 = true ∧
    (InMemoryGridStorage.rustTokenOfPy pyTokenCex).field_radius =
      pyInt (pyTokenCex.field_radius * 100) := by
  have h := C3_add_token_conversion ⟨[(1, {})], 2⟩ 1 {} pyTokenCex rfl
  exact ⟨h.1, h.2.2.2.2.2.2.1⟩

theorem update_next_local_id (s : InMemoryTokenStorage) (tid : ℕ) (d : TokenData) :
    ((InMemoryTokenStorage.update s tid d).1).next_local_id = s.next_local_id := by
  cases hl : lookupKey s.storage tid <;> simp [InMemoryTokenStorage.update, hl]

theorem delete_next_local_id (s : InMemoryTokenStorage) (tid : ℕ) :
    ((InMemoryTokenStorage.delete s tid).1).next_local_id = s.next_local_id := by
  by_cases h : hasKey s.storage tid <;> simp [InMemoryTokenStorage.delete, h]

theorem runTokenOps_no_clear (ops : List TokenOp) (h : TokenOp.clear ∉ ops) :
    ∀ s : InMemoryTokenStorage,
      ((runTokenOps s ops).2).Pairwise (· < ·) ∧
      ∀ lid ∈ (runTokenOps s ops).2, s.next_local_id ≤ lid := by
  induction ops with
  | nil => intro s; simp [runTokenOps]
  | cons op rest ih =>
      have hrest : TokenOp.clear ∉ rest := fun hh => h (List.mem_cons_of_mem _ hh)
      intro s
      cases op with
      | create d =>
          simp only [runTokenOps]
          have hnext : ((InMemoryTokenStorage.create s d).1).next_local_id =
              s.next_local_id + 1 := rfl
          have hr := ih hrest (InMemoryTokenStorage.create s d).1
          rw [hnext] at hr
          constructor
          · exact List.Pairwise.cons (fun lid hl => by have := hr.2 lid hl; omega) hr.1
          · intro lid hl
            rcases List.mem_cons.mp hl with hh | hh
            · omega
            · have := hr.2 lid hh; omega
      | update tid d =>
          simp only [runTokenOps]
          have hr := ih hrest (InMemoryTokenStorage.update s tid d).1
          rw [update_next_local_id] at hr
          exact hr
      | delete tid =>
          simp only [runTokenOps]
          have hr := ih hrest (InMemoryTokenStorage.delete s tid).1
          rw [delete_next_local_id] at hr
          exact hr
      | clear => exact absurd (List.mem_cons_self _ _) h

/-- Counterexample to C6 as stated: in the operation sequence create, clear,
create, the second create consumes local_id 1 again (clear resets the
counter), so the consumed local ids [1, 1] are not strictly increasing and
the allocated ids coincide. -/
theorem C6_counterexample :
    (runTokenOps {} [TokenOp.create {}, TokenOp.clear, TokenOp.create {}]).2 = [1, 1] ∧
    ¬ ((runTokenOps {} [TokenOp.create {}, TokenOp.clear,
        TokenOp.create {}]).2).Pairwise (· < ·) := by
  have h1 : (runTokenOps {} [TokenOp.create {}, TokenOp.clear,
      TokenOp.create {}]).2 = [1, 1] := rfl
  refine ⟨h1, ?_⟩
  rw [h1]
  simp

/-- C6 (amended): over any operation sequence that contains no `clear`, the
local_id consumed by each create call is strictly greater than every local_id
consumed by an earlier create, so those ids are pairwise distinct; `clear`
however resets the local id counter to 1, after which local ids repeat. -/
theorem C6_local_ids_increasing (ops : List TokenOp) (h : TokenOp.clear ∉ ops) :
    ((runTokenOps {} ops).2).Pairwise (· < ·) ∧
    ∀ s : InMemoryTokenStorage, ((InMemoryTokenStorage.clear s).1).next_local_id = 1 :=
  ⟨(runTokenOps_no_clear ops h {}).1, fun _ => rfl⟩

/-- Witness for C6's amended statement on a concrete clear-free sequence. -/
theorem C6_local_ids_increasing_witness :
    TokenOp.clear ∉ [TokenOp.create {}, TokenOp.delete 5, TokenOp.create {}] ∧
    ((runTokenOps {} [TokenOp.create {}, TokenOp.delete 5,
      TokenOp.create {}]).2).Pairwise (· < ·) := by
  have hmem : TokenOp.clear ∉ [TokenOp.create {}, TokenOp.delete 5, TokenOp.create {}] := by
    simp
  exact ⟨hmem, (C6_local_ids_increasing _ hmem).1⟩

theorem pairLe_trans (a b c : ℕ × ℚ) (hab : pairLe a b = true) (hbc : pairLe b c = true) :
    pairLe a c = true := by
  simp only [pairLe, decide_eq_true_eq] at hab hbc ⊢
  rcases hab with h | ⟨he, hi⟩ <;> rcases hbc with h' | ⟨he', hi'⟩
  · exact Or.inl (h.trans h')
  · exact Or.inl (he' ▸ h)
  · exact Or.inl (he ▸ h')
  · exact Or.inr ⟨he.trans he', hi.trans hi'⟩

theorem pairLe_total (a b : ℕ × ℚ) : (pairLe a b || pairLe b a) = true := by
  simp only [pairLe, Bool.or_eq_true, decide_eq_true_eq]
  rcases lt_trichotomy a.2 b.2 with h | h | h
  · exact Or.inl (Or.inl h)
  · rcases Nat.le_total a.1 b.1 with hi | hi
    · exact Or.inl (Or.inr ⟨h, hi⟩)
    · exact Or.inr (Or.inr ⟨h.symm, hi⟩)
  · exact Or.inr (Or.inl h)

theorem axis_bounds {x c r d2 : ℚ} (hr : 0 ≤ r) (hd : (x - c) ^ 2 ≤ d2)
    (hdr : d2 ≤ r ^ 2) : c - r ≤ x ∧ x ≤ c + r := by
  constructor <;> nlinarith [sq_nonneg (x - c + r), sq_nonneg (x - c - r)]

theorem floor_div_bounds {b c r x : ℚ} (hb : 0 < b) (h1 : c - r ≤ x) (h2 : x ≤ c + r) :
    ⌊(c - r) / b⌋ ≤ ⌊x / b⌋ ∧ ⌊x / b⌋ ≤ ⌊(c + r) / b⌋ :=
  ⟨Int.floor_mono (by gcongr), Int.floor_mono (by gcongr)⟩

/-- Coverage of the coarse bucket pass: a point within exact (squared)
distance `r²` of the query center has its bucket key inside the bounding cube
scanned by `buckets_in_radius`, so the coarse pass never discards a true
match. -/
theorem keyInRadius_of_close {b r : ℚ} (c p : Coord) (hb : 0 < b) (hr : 0 ≤ r)
    (hd : dist2 c p ≤ r ^ 2) : keyInRadius b c r (bucketKey b p) = true := by
  have e1 : (p.1 - c.1) ^ 2 ≤ dist2 c p := by
    unfold dist2; nlinarith [sq_nonneg (c.2.1 - p.2.1), sq_nonneg (c.2.2 - p.2.2)]
  have e2 : (p.2.1 - c.2.1) ^ 2 ≤ dist2 c p := by
    unfold dist2; nlinarith [sq_nonneg (c.1 - p.1), sq_nonneg (c.2.2 - p.2.2)]
  have e3 : (p.2.2 - c.2.2) ^ 2 ≤ dist2 c p := by
    unfold dist2; nlinarith [sq_nonneg (c.1 - p.1), sq_nonneg (c.2.1 - p.2.1)]
  have a1 := axis_bounds hr e1 hd
  have a2 := axis_bounds hr e2 hd
  have a3 := axis_bounds hr e3 hd
  have f1 := floor_div_bounds hb a1.1 a1.2
  have f2 := floor_div_bounds hb a2.1 a2.2
  have f3 := floor_div_bounds hb a3.1 a3.2
  simp only [keyInRadius, bucketKey, Bool.and_eq_true, decide_eq_true_eq]
  exact ⟨⟨⟨f1.1, f1.2⟩, f2.1, f2.2⟩, f3.1, f3.2⟩

theorem filterMap_filter_of_imp {α β : Type} (l : List α) (p : α → Bool) (f : α → Option β)
    (h : ∀ a ∈ l, (∃ b, f a = some b) → p a = true) :
    (l.filter p).filterMap f = l.filterMap f := by
  induction l with
  | nil => rfl
  | cons a rest ih =>
      have hrest := ih (fun x hx => h x (List.mem_cons_of_mem _ hx))
      rw [List.filter_cons]
      by_cases hp : p a = true
      · rw [if_pos hp, List.filterMap_cons, List.filterMap_cons]
        cases f a <;> simp [hrest]
      · have hfa : f a = none := by
          cases hfa : f a with
          | none => rfl
          | some b => exact absurd (h a (List.mem_cons_self _ _) ⟨b, hfa⟩) hp
        rw [if_neg (by simpa using hp), List.filterMap_cons, hfa]
        exact hrest

/-- C1: on every grid, `find_neighbors(token_id, L, radius, max_results)`
around an indexed query token returns exactly the tokens of the table whose
exact Euclidean distance in layer L from the query coordinate is within the
radius (the query token excluded), as ordered `(token_id, distance)` pairs
sorted ascending by distance with ties broken by ascending token id,
truncated to `max_results` — i.e. the two-phase bucketed search coincides
with the brute-force specification, and its output is sorted. -/
theorem C1_find_neighbors_exact (g : Grid) (tid : ℕ) (L : Fin 8) (r : ℚ) (k : ℕ)
    (c : Coord) (hb : 0 < g.config.bucket_size) (hr : 0 ≤ r)
    (hc : g.coordOf tid L = some c) :
    g.find_neighbors tid L r k = .ok ((bruteNeighbors g tid L r c).take k) ∧
    ((bruteNeighbors g tid L r c).take k).Pairwise (fun a b => pairLe a b = true) := by
  have habsorb : g.neighborPairs L c tid r =
      g.tokens.filterMap (fun t =>
        match t.coords L with
        | some p => if t.id ≠ tid ∧ dist2 c p ≤ r ^ 2 then some (t.id, dist2 c p) else none
        | none => none) := by
    unfold Grid.neighborPairs Grid.candidates
    apply filterMap_filter_of_imp
    intro t _ hsome
    rcases hsome with ⟨pr, hpr⟩
    cases hco : t.coords L with
    | none => rw [hco] at hpr; simp at hpr
    | some p =>
        rw [hco] at hpr
        dsimp only at hpr ⊢
        by_cases hcond : t.id ≠ tid ∧ dist2 c p ≤ r ^ 2
        · exact keyInRadius_of_close c p hb hr hcond.2
        · rw [if_neg hcond] at hpr; simp at hpr
  constructor
  · unfold Grid.find_neighbors
    rw [if_neg (not_lt.mpr hr), hc]
    unfold bruteNeighbors
    dsimp only
    rw [habsorb]
  · exact (List.sorted_mergeSort pairLe_trans pairLe_total _).sublist
      (List.take_sublist k _)

/-- Coordinates set only in layer 0, for the concrete witness grid. -/
def layer0Coords (p : Coord) : Fin 8 → Option Coord :=
  fun L => if L = 0 then some p else none

/-- The spec's concrete scenario grid (bucket_size 10): token A at the origin,
token B at (3,4,0) — distance 5 from A — and token C far away at
(100,100,100), all in layer 0. -/
def gridScenario : Grid :=
  { tokens :=
      [ { id := 1, coords := layer0Coords (0, 0, 0), weight := 1 / 2,
          field_radius := 100, field_strength := 255, active := true },
        { id := 2, coords := layer0Coords (3, 4, 0), weight := 1 / 2,
          field_radius := 100, field_strength := 255, active := true },
        { id := 3, coords := layer0Coords (100, 100, 100), weight := 1 / 2,
          field_radius := 100, field_strength := 255, active := true } ] }

/-- Witness for C1 on the spec's concrete scenario: the bucket size is
positive, the radius 5 is nonnegative, token 1 is indexed at the origin in
layer 0, and `find_neighbors` agrees with the brute-force specification. -/
theorem C1_find_neighbors_exact_witness :
    0 < gridScenario.config.bucket_size ∧ (0 : ℚ) ≤ 5 ∧
    gridScenario.coordOf 1 0 = some (0, 0, 0) ∧
    gridScenario.find_neighbors 1 0 5 10 =
      .ok ((bruteNeighbors gridScenario 1 0 5 (0, 0, 0)).take 10) := by
  have hb : 0 < gridScenario.config.bucket_size := by norm_num [gridScenario]
  have hc : gridScenario.coordOf 1 0 = some (0, 0, 0) := rfl
  exact ⟨hb, by norm_num, hc,
    (C1_find_neighbors_exact gridScenario 1 0 5 10 (0, 0, 0) hb (by norm_num) hc).1⟩
